import Mathlib

/-!
Verification of the resilience layer of the `http-service` repository:
circuit breaker (`http_service/circuit_breaker.py`), retry and rate-limit
decorators (`http_service/patterns/decorators.py`, `http_service/decorators.py`),
backoff-delay utility (`http_service/utils.py`), and bulkhead
(`http_service/patterns/bulkhead.py`).

Time and delays are modelled as rationals; a Python exception is modelled as
a value carrying the list of class tags it is an instance of plus an identity
tag; an operation invocation is a value of `Except Exc α` describing whether
the wrapped callable returns or raises when it is invoked.
-/

instance {ε α : Type} [DecidableEq ε] [DecidableEq α] : DecidableEq (Except ε α) := fun x y =>
  match x, y with
  | .ok a, .ok b =>
    if h : a = b then .isTrue (congrArg Except.ok h)
    else .isFalse (fun hh => h (Except.ok.inj hh))
  | .error a, .error b =>
    if h : a = b then .isTrue (congrArg Except.error h)
    else .isFalse (fun hh => h (Except.error.inj hh))
  | .ok _, .error _ => .isFalse (fun hh => Except.noConfusion hh)
  | .error _, .ok _ => .isFalse (fun hh => Except.noConfusion hh)

/-- A Python exception value: `classes` is the set of type tags the exception
is an instance of (`isinstance(e, T)` ⟺ `T ∈ e.classes`); `tag` distinguishes
one raised exception object from another. -/
structure Exc where
  classes : List Nat
  tag : Nat
deriving DecidableEq, Repr

/-- An HTTP response, reduced to the only field the resilience layer reads. -/
structure Response where
  status_code : Nat
deriving DecidableEq, Repr

/-- `CircuitBreakerState` from `http_service/models.py`. -/
inductive CircuitBreakerState where
  | closed
  | opened
  | halfOpen
deriving DecidableEq, Repr

/-- `CircuitBreakerConfig` from `http_service/models.py` (the fields the
breaker and its failure classifier read). -/
structure CircuitBreakerConfig where
  enabled : Bool
  failure_threshold : Nat
  recovery_timeout : Rat
  expected_exception : Nat
  failure_status_codes : List Nat
  success_threshold : Nat
  timeout_exceptions : List Nat
deriving DecidableEq, Repr

/-- The mutable state of `CircuitBreaker` from `http_service/circuit_breaker.py`. -/
structure CircuitBreaker where
  config : CircuitBreakerConfig
  state : CircuitBreakerState
  failure_count : Nat
  success_count : Nat
  last_failure_time : Rat
  last_success_time : Rat
  total_requests : Nat
  total_failures : Nat
  total_successes : Nat
  total_rejected : Nat
deriving DecidableEq, Repr

/-- `CircuitBreaker.__init__`: fresh breaker for a configuration. -/
def CircuitBreaker.mk0 (config : CircuitBreakerConfig) : CircuitBreaker :=
  { config := config, state := .closed, failure_count := 0, success_count := 0,
    last_failure_time := 0, last_success_time := 0,
    total_requests := 0, total_failures := 0, total_successes := 0,
    total_rejected := 0 }

/-- `CircuitBreaker._should_attempt_reset`. -/
def CircuitBreaker.should_attempt_reset (b : CircuitBreaker) (now : Rat) : Bool :=
  now - b.last_failure_time ≥ b.config.recovery_timeout

/-- `CircuitBreaker._set_half_open`. -/
def CircuitBreaker.set_half_open (b : CircuitBreaker) : CircuitBreaker :=
  { b with state := .halfOpen, success_count := 0 }

/-- `CircuitBreaker._set_closed`. -/
def CircuitBreaker.set_closed (b : CircuitBreaker) : CircuitBreaker :=
  { b with state := .closed, failure_count := 0, success_count := 0 }

/-- `CircuitBreaker._set_open`. -/
def CircuitBreaker.set_open (b : CircuitBreaker) : CircuitBreaker :=
  { b with state := .opened }

/-- `CircuitBreaker._on_success` (the `time.time()` read is the call's `now`). -/
def CircuitBreaker.on_success (b : CircuitBreaker) (now : Rat) : CircuitBreaker :=
  let b := { b with last_success_time := now, total_successes := b.total_successes + 1 }
  if b.state = .halfOpen then
    let b := { b with success_count := b.success_count + 1 }
    if b.success_count ≥ b.config.success_threshold then b.set_closed else b
  else
    { b with failure_count := 0 }

/-- `CircuitBreaker._on_failure`. -/
def CircuitBreaker.on_failure (b : CircuitBreaker) (now : Rat) : CircuitBreaker :=
  let b := { b with last_failure_time := now, total_failures := b.total_failures + 1,
                    failure_count := b.failure_count + 1 }
  if b.state = .halfOpen then
    b.set_open
  else if b.state = .closed ∧ b.failure_count ≥ b.config.failure_threshold then
    b.set_open
  else
    b

/-- Outcome of one protected call. -/
inductive CallOutcome (α : Type) where
  | ok (a : α)
  | err (e : Exc)
  | rejectedOpen
deriving DecidableEq, Repr

/-- Result of one `CircuitBreaker.call`: the breaker afterwards, what the call
returned or raised, and whether the wrapped operation was invoked. -/
structure CallResult (α : Type) where
  breaker : CircuitBreaker
  outcome : CallOutcome α
  invoked : Bool
deriving DecidableEq, Repr

/-- The `try func() / _on_success / _on_failure` tail of `CircuitBreaker.call`. -/
def CircuitBreaker.exec {α : Type} (b : CircuitBreaker) (now : Rat)
    (op : Except Exc α) : CallResult α :=
  match op with
  | .ok a => ⟨b.on_success now, .ok a, true⟩
  | .error e => ⟨b.on_failure now, .err e, true⟩

/-- `CircuitBreaker.call` from `http_service/circuit_breaker.py`: `op` is what
the wrapped callable does if invoked at time `now`. -/
def CircuitBreaker.call {α : Type} (b : CircuitBreaker) (now : Rat)
    (op : Except Exc α) : CallResult α :=
  if ¬ b.config.enabled then
    match op with
    | .ok a => ⟨b, .ok a, true⟩
    | .error e => ⟨b, .err e, true⟩
  else
    let b := { b with total_requests := b.total_requests + 1 }
    if b.state = .opened then
      if b.should_attempt_reset now then
        (b.set_half_open).exec now op
      else
        ⟨{ b with total_rejected := b.total_rejected + 1 }, .rejectedOpen, false⟩
    else
      b.exec now op

/-- `CircuitBreaker.reset`. -/
def CircuitBreaker.reset (b : CircuitBreaker) : CircuitBreaker :=
  b.set_closed

/-- `CircuitBreaker.force_open`. -/
def CircuitBreaker.force_open (b : CircuitBreaker) : CircuitBreaker :=
  b.set_open

/-- `should_trigger_circuit_breaker` from `http_service/circuit_breaker.py`. -/
def should_trigger_circuit_breaker (response : Option Response)
    (exception : Option Exc) (config : CircuitBreakerConfig) : Bool :=
  (match exception with
   | some e => config.timeout_exceptions.any (fun t => e.classes.contains t)
   | none => false) ||
  (match exception with
   | some e => e.classes.contains config.expected_exception
   | none => false) ||
  (match response with
   | some r => config.failure_status_codes.contains r.status_code
   | none => false)

/-- Class tag standing for `httpx.HTTPStatusError`. -/
def httpStatusErrorClass : Nat := 100

/-- The `httpx.HTTPStatusError` the client raises for a failure status code. -/
def http_status_error (r : Response) : Exc :=
  ⟨[httpStatusErrorClass], r.status_code⟩

/-- The inner `request_func` of `HTTPClient._make_request` in
`http_service/client.py`: the raw transport outcome is converted to a raised
`httpx.HTTPStatusError` when the breaker is enabled and the response's status
code is in `failure_status_codes`. -/
def request_func (circuit_breaker_enabled : Bool) (config : CircuitBreakerConfig)
    (response : Except Exc Response) : Except Exc Response :=
  match response with
  | .error e => .error e
  | .ok r =>
    if circuit_breaker_enabled ∧ config.failure_status_codes ≠ [] ∧
       r.status_code ∈ config.failure_status_codes then
      .error (http_status_error r)
    else
      .ok r

/-- `k` consecutive calls through the breaker whose operation raises `e`,
all at time `now`. -/
def failIter (b : CircuitBreaker) (now : Rat) (e : Exc) : Nat → CircuitBreaker
  | 0 => b
  | k + 1 => ((failIter b now e k).call now (Except.error e : Except Exc Unit)).breaker

/-- `k` consecutive calls through the breaker whose operation returns `r`,
all at time `now`. -/
def okIter (b : CircuitBreaker) (now : Rat) (r : Response) : Nat → CircuitBreaker
  | 0 => b
  | k + 1 => ((okIter b now r k).call now (Except.ok r : Except Exc Response)).breaker

/-- One run of the `retry` wrapper: what the call returned or raised, the
number of times the wrapped callable was invoked, and the successive delays
slept between attempts. -/
structure RetryRun where
  outcome : Except Exc Response
  invocations : Nat
  delays : List Rat
deriving DecidableEq, Repr

/-- The `for attempt in range(max_retries + 1)` loop of `retry` in
`http_service/patterns/decorators.py` (identical loop in
`http_service/decorators.py`), started at `attempt` with `remaining` further
attempts allowed.  `op a` is what the wrapped callable does on its
`a`-th invocation; `should_retry` is the loop's exception classification. -/
def retryAux (should_retry : Exc → Bool) (retry_on_status_codes : List Nat)
    (retry_delay backoff_factor : Rat) (op : Nat → Except Exc Response) :
    Nat → Nat → RetryRun
  | attempt, 0 => ⟨op attempt, 1, []⟩
  | attempt, remaining + 1 =>
    match op attempt with
    | .ok r =>
      if retry_on_status_codes ≠ [] ∧ r.status_code ∈ retry_on_status_codes then
        let rest := retryAux should_retry retry_on_status_codes retry_delay
          backoff_factor op (attempt + 1) remaining
        ⟨rest.outcome, rest.invocations + 1,
          retry_delay * backoff_factor ^ attempt :: rest.delays⟩
      else
        ⟨.ok r, 1, []⟩
    | .error e =>
      if should_retry e then
        let rest := retryAux should_retry retry_on_status_codes retry_delay
          backoff_factor op (attempt + 1) remaining
        ⟨rest.outcome, rest.invocations + 1,
          retry_delay * backoff_factor ^ attempt :: rest.delays⟩
      else
        ⟨.error e, 1, []⟩

/-- The whole `retry(...)`-wrapped call: the loop from attempt 0 with
`max_retries` retries allowed. -/
def retry_wrapper (should_retry : Exc → Bool) (retry_on_status_codes : List Nat)
    (retry_delay backoff_factor : Rat) (max_retries : Nat)
    (op : Nat → Except Exc Response) : RetryRun :=
  retryAux should_retry retry_on_status_codes retry_delay backoff_factor op 0 max_retries

/-- The `should_retry` computation of `retry` in
`http_service/patterns/decorators.py`: when no exception list is configured,
every exception is retried. -/
def patterns_should_retry (retry_on_exceptions : List Nat) (e : Exc) : Bool :=
  if retry_on_exceptions ≠ [] then
    retry_on_exceptions.any (fun t => e.classes.contains t)
  else
    true

/-- The `should_retry` computation of `retry` in `http_service/decorators.py`:
when no exception list is configured, `should_retry` stays `False`. -/
def core_should_retry (retry_on_exceptions : List Nat) (e : Exc) : Bool :=
  if retry_on_exceptions ≠ [] then
    retry_on_exceptions.any (fun t => e.classes.contains t)
  else
    false

/-- `calculate_backoff_delay` from `http_service/utils.py`; `rand` models the
`random.random()` draw (a value in `[0, 1)`). -/
def calculate_backoff_delay (attempt : Int) (base_delay backoff_factor max_delay : Rat)
    (jitter : Bool) (rand : Rat) : Rat :=
  let adjusted_attempt := attempt - 1
  let delay := base_delay * backoff_factor ^ adjusted_attempt
  let delay := min delay max_delay
  if jitter then
    let max_jitter := min (delay * (1 / 4)) (max_delay - delay)
    let jitter_amount := max_jitter * rand
    delay + jitter_amount
  else
    delay

/-- The shared mutable state of the `rate_limit` wrapper in
`http_service/patterns/decorators.py`. -/
structure RateLimitState where
  last_request_time : Rat
  request_count : Nat
deriving DecidableEq, Repr

/-- One call through the `rate_limit` wrapper of
`http_service/patterns/decorators.py`: `now` is the entry clock read,
`after_wait` the clock read after the (possible) sleep; returns the new state
and the slept duration.  The operation is always invoked afterwards. -/
def rate_limit_step (requests_per_second : Option Rat) (burst_size : Nat)
    (s : RateLimitState) (now after_wait : Rat) : RateLimitState × Rat :=
  match requests_per_second with
  | none => (s, 0)
  | some rps =>
    let time_since_last_request := now - s.last_request_time
    let min_interval := 1 / rps
    let c := if time_since_last_request ≥ min_interval then 0 else s.request_count
    if c ≥ burst_size then
      let sleep_time := min_interval - time_since_last_request
      let wait := if sleep_time > 0 then sleep_time else 0
      let c := 0
      (⟨after_wait, c + 1⟩, wait)
    else
      (⟨after_wait, c + 1⟩, 0)

/-- Modelled from the spec's words (§4.3 RateLimiter algorithm), for
comparison with `rate_limit_step`: read `now`; let `interval =
1/requests_per_second`; if `now - last_request_time ≥ interval` reset
`burst_count`; if `burst_count ≥ burst_size` compute `wait = interval -
(now - last_request_time)`, suspend for `wait` when positive, then reset
`burst_count`; increment `burst_count`, set `last_request_time` to the
current time, invoke; `null` rate means pass-through. -/
def spec_throttle (requests_per_second : Option Rat) (burst_size : Nat)
    (s : RateLimitState) (now after_wait : Rat) : RateLimitState × Rat :=
  match requests_per_second with
  | none => (s, 0)
  | some rps =>
    let interval := 1 / rps
    let elapsed := now - s.last_request_time
    let burst_count := if elapsed ≥ interval then 0 else s.request_count
    if burst_count ≥ burst_size then
      let wait := interval - elapsed
      let wait := if wait > 0 then wait else 0
      (⟨after_wait, 0 + 1⟩, wait)
    else
      (⟨after_wait, burst_count + 1⟩, 0)

/-- `BulkheadConfig` from `http_service/patterns/bulkhead.py`. -/
structure BulkheadConfig where
  enabled : Bool
  max_concurrent : Option Int
  acquire_timeout : Rat
deriving DecidableEq, Repr

/-- The `config.max_concurrent and config.max_concurrent > 0` truthiness chain
deciding whether `Bulkhead.__init__` builds a semaphore. -/
def BulkheadConfig.has_semaphore (cfg : BulkheadConfig) : Bool :=
  match cfg.max_concurrent with
  | some n => (n != 0) && decide (0 < n)
  | none => false

/-- Outcome of entering `Bulkhead.slot`. -/
inductive SlotOutcome (α : Type) where
  | res (r : Except Exc α)
  | rejected
deriving DecidableEq, Repr

/-- Result of one pass through `Bulkhead.slot`: free permits afterwards, the
outcome, and whether the guarded operation ran. -/
structure SlotResult (α : Type) where
  avail : Nat
  outcome : SlotOutcome α
  invoked : Bool
deriving DecidableEq, Repr

/-- `semaphore.acquire(timeout=...)` for a single sequential caller: with no
concurrent releaser, acquisition succeeds exactly when a permit is free. -/
def semAcquire (avail : Nat) : Option Nat :=
  if 0 < avail then some (avail - 1) else none

/-- `semaphore.release()`. -/
def semRelease (avail : Nat) : Nat := avail + 1

/-- `Bulkhead.slot` from `http_service/patterns/bulkhead.py` wrapped around one
operation (sequential single-caller model): passthrough when disabled or
without semaphore; otherwise acquire, run the operation, and release in a
`finally` on both the return and the raise path. -/
def Bulkhead.slot {α : Type} (cfg : BulkheadConfig) (avail : Nat)
    (op : Except Exc α) : SlotResult α :=
  if ¬ cfg.enabled ∨ ¬ cfg.has_semaphore then
    ⟨avail, .res op, true⟩
  else
    match semAcquire avail with
    | none => ⟨avail, .rejected, false⟩
    | some a => ⟨semRelease a, .res op, true⟩

/-! ### Concrete fixtures used by the witness theorems -/

/-- A concrete enabled breaker configuration (threshold 3, timeout 60s). -/
def wCfg : CircuitBreakerConfig :=
  ⟨true, 3, 60, 0, [500, 502, 503, 504], 2, [1, 2]⟩

/-- A fresh closed breaker over `wCfg`. -/
def wClosed : CircuitBreaker := CircuitBreaker.mk0 wCfg

/-- A breaker over `wCfg` that opened at time 100. -/
def wOpen : CircuitBreaker :=
  { wClosed with state := .opened, failure_count := 3, last_failure_time := 100,
                 total_requests := 3, total_failures := 3 }

/-- A breaker over `wCfg` probing in half-open. -/
def wHalf : CircuitBreaker :=
  { wClosed with state := .halfOpen, total_requests := 4 }

/-- A concrete raised exception. -/
def wExc : Exc := ⟨[0], 7⟩

/-- A concrete 200 response. -/
def wResp : Response := ⟨200⟩

/-- A concrete 500 response. -/
def wResp500 : Response := ⟨500⟩

/-- A wrapped callable raising a distinct exception on every attempt. -/
def wFailOp : Nat → Except Exc Response := fun a => Except.error ⟨[0], a⟩

/-- A concrete enabled bulkhead configuration with two permits. -/
def wBhCfg : BulkheadConfig := ⟨true, some 2, 0⟩

/-! ### Basic lemmas about one breaker call -/

theorem call_config {α : Type} (b : CircuitBreaker) (now : Rat) (op : Except Exc α) :
    ((b.call now op).breaker).config = b.config := by
  cases op <;>
    simp only [CircuitBreaker.call, CircuitBreaker.exec, CircuitBreaker.on_success,
      CircuitBreaker.on_failure, CircuitBreaker.set_closed, CircuitBreaker.set_open,
      CircuitBreaker.set_half_open] <;>
    split_ifs <;> rfl

theorem call_open_rejected {α : Type} (b : CircuitBreaker) (now : Rat) (op : Except Exc α)
    (hen : b.config.enabled = true) (hst : b.state = .opened)
    (hrec : now - b.last_failure_time < b.config.recovery_timeout) :
    b.call now op =
      ⟨{ b with total_requests := b.total_requests + 1,
                total_rejected := b.total_rejected + 1 }, .rejectedOpen, false⟩ := by
  have h : ¬ b.config.recovery_timeout ≤ now - b.last_failure_time := not_le.mpr hrec
  simp [CircuitBreaker.call, CircuitBreaker.should_attempt_reset, hen, hst, h]

theorem call_open_reset {α : Type} (b : CircuitBreaker) (now : Rat) (op : Except Exc α)
    (hen : b.config.enabled = true) (hst : b.state = .opened)
    (hrec : b.config.recovery_timeout ≤ now - b.last_failure_time) :
    b.call now op =
      ({ b with total_requests := b.total_requests + 1 }).set_half_open.exec now op := by
  simp [CircuitBreaker.call, CircuitBreaker.should_attempt_reset, hen, hst, hrec]

theorem call_err_from_closed {α : Type} (b : CircuitBreaker) (now : Rat) (e : Exc)
    (hen : b.config.enabled = true) (hst : b.state = .closed) :
    ((b.call now (Except.error e : Except Exc α)).breaker).config = b.config ∧
    ((b.call now (Except.error e : Except Exc α)).breaker).failure_count = b.failure_count + 1 ∧
    ((b.call now (Except.error e : Except Exc α)).breaker).last_failure_time = now ∧
    ((b.call now (Except.error e : Except Exc α)).breaker).total_failures = b.total_failures + 1 ∧
    ((b.call now (Except.error e : Except Exc α)).breaker).state =
      (if b.config.failure_threshold ≤ b.failure_count + 1 then .opened else .closed) := by
  simp only [CircuitBreaker.call, CircuitBreaker.exec, CircuitBreaker.on_failure,
    CircuitBreaker.set_open, hen, hst]
  split_ifs <;> simp_all

theorem call_ok_from_half {α : Type} (b : CircuitBreaker) (now : Rat) (a : α)
    (hen : b.config.enabled = true) (hst : b.state = .halfOpen) :
    ((b.call now (Except.ok a : Except Exc α)).breaker).config = b.config ∧
    ((b.call now (Except.ok a : Except Exc α)).breaker).state =
      (if b.config.success_threshold ≤ b.success_count + 1 then .closed else .halfOpen) ∧
    ((b.call now (Except.ok a : Except Exc α)).breaker).success_count =
      (if b.config.success_threshold ≤ b.success_count + 1 then 0 else b.success_count + 1) ∧
    ((b.call now (Except.ok a : Except Exc α)).breaker).failure_count =
      (if b.config.success_threshold ≤ b.success_count + 1 then 0 else b.failure_count) := by
  simp only [CircuitBreaker.call, CircuitBreaker.exec, CircuitBreaker.on_success,
    CircuitBreaker.set_closed, hen, hst]
  split_ifs <;> simp_all

theorem call_err_from_half {α : Type} (b : CircuitBreaker) (now : Rat) (e : Exc)
    (hen : b.config.enabled = true) (hst : b.state = .halfOpen) :
    ((b.call now (Except.error e : Except Exc α)).breaker).state = .opened ∧
    ((b.call now (Except.error e : Except Exc α)).breaker).config = b.config ∧
    ((b.call now (Except.error e : Except Exc α)).breaker).last_failure_time = now := by
  simp only [CircuitBreaker.call, CircuitBreaker.exec, CircuitBreaker.on_failure,
    CircuitBreaker.set_open, hen, hst]
  split_ifs <;> simp_all

theorem failIter_closed (b : CircuitBreaker) (now : Rat) (e : Exc)
    (hen : b.config.enabled = true) (hst : b.state = .closed) (hfc : b.failure_count = 0) :
    ∀ k, k < b.config.failure_threshold →
      (failIter b now e k).state = .closed ∧ (failIter b now e k).failure_count = k ∧
      (failIter b now e k).config = b.config := by
  intro k
  induction k with
  | zero => exact fun _ => ⟨hst, hfc, rfl⟩
  | succ k ih =>
    intro hk
    obtain ⟨h1, h2, h3⟩ := ih (Nat.lt_of_succ_lt hk)
    have hen' : (failIter b now e k).config.enabled = true := by rw [h3]; exact hen
    obtain ⟨s1, s2, s3, s4, s5⟩ :=
      call_err_from_closed (α := Unit) (failIter b now e k) now e hen' h1
    refine ⟨?_, ?_, ?_⟩
    · simp only [failIter]
      rw [s5, h2, h3, if_neg (by omega)]
    · simp only [failIter]
      rw [s2, h2]
    · simp only [failIter]
      rw [s1, h3]

theorem failIter_opens (b : CircuitBreaker) (now : Rat) (e : Exc)
    (hen : b.config.enabled = true) (hst : b.state = .closed) (hfc : b.failure_count = 0)
    (hN : 1 ≤ b.config.failure_threshold) :
    (failIter b now e b.config.failure_threshold).state = .opened ∧
    (failIter b now e b.config.failure_threshold).failure_count = b.config.failure_threshold ∧
    (failIter b now e b.config.failure_threshold).last_failure_time = now ∧
    (failIter b now e b.config.failure_threshold).config = b.config := by
  obtain ⟨N, hN'⟩ : ∃ k, b.config.failure_threshold = k + 1 :=
    ⟨b.config.failure_threshold - 1, by omega⟩
  obtain ⟨h1, h2, h3⟩ := failIter_closed b now e hen hst hfc N (by omega)
  have hen' : (failIter b now e N).config.enabled = true := by rw [h3]; exact hen
  obtain ⟨s1, s2, s3, s4, s5⟩ :=
    call_err_from_closed (α := Unit) (failIter b now e N) now e hen' h1
  rw [hN']
  refine ⟨?_, ?_, ?_, ?_⟩
  · simp only [failIter]
    rw [s5, h2, h3, if_pos (by omega)]
  · simp only [failIter]
    rw [s2, h2]
  · simp only [failIter]
    exact s3
  · simp only [failIter]
    rw [s1, h3]

/-- C1: for every `failure_threshold N ≥ 1`, starting from a CLOSED enabled
breaker with `failure_count = 0`, N consecutive calls whose operation raises
drive the breaker to OPEN exactly on the Nth failure (it is still CLOSED after
every earlier failure), and the next call while the recovery window has not
elapsed raises `CircuitBreakerOpenError` without invoking the operation. -/
theorem C1_failure_threshold_opens (b : CircuitBreaker) (now now2 : Rat) (e : Exc)
    (hen : b.config.enabled = true) (hst : b.state = .closed) (hfc : b.failure_count = 0)
    (hN : 1 ≤ b.config.failure_threshold)
    (hrec : now2 - now < b.config.recovery_timeout) :
    (∀ k, k < b.config.failure_threshold → (failIter b now e k).state = .closed) ∧
    (failIter b now e b.config.failure_threshold).state = .opened ∧
    (∀ {α : Type} (op : Except Exc α),
      ((failIter b now e b.config.failure_threshold).call now2 op).outcome = .rejectedOpen ∧
      ((failIter b now e b.config.failure_threshold).call now2 op).invoked = false) := by
  obtain ⟨o1, o2, o3, o4⟩ := failIter_opens b now e hen hst hfc hN
  refine ⟨fun k hk => (failIter_closed b now e hen hst hfc k hk).1, o1, ?_⟩
  intro α op
  have hen' : (failIter b now e b.config.failure_threshold).config.enabled = true := by
    rw [o4]; exact hen
  have hrec' : now2 - (failIter b now e b.config.failure_threshold).last_failure_time <
      (failIter b now e b.config.failure_threshold).config.recovery_timeout := by
    rw [o3, o4]; exact hrec
  rw [call_open_rejected _ now2 op hen' o1 hrec']
  exact ⟨rfl, rfl⟩

theorem C1_failure_threshold_opens_witness :
    wClosed.config.enabled = true ∧ wClosed.state = .closed ∧ wClosed.failure_count = 0 ∧
    1 ≤ wClosed.config.failure_threshold ∧
    ((10 : Rat) - 0 < wClosed.config.recovery_timeout) ∧
    (failIter wClosed 0 wExc 2).state = .closed ∧
    (failIter wClosed 0 wExc 3).state = .opened ∧
    ((failIter wClosed 0 wExc 3).call 10 (Except.ok wResp : Except Exc Response)).outcome =
      .rejectedOpen := by
  have h := C1_failure_threshold_opens wClosed 0 10 wExc rfl rfl rfl
    (by norm_num [wClosed, wCfg, CircuitBreaker.mk0])
    (by norm_num [wClosed, wCfg, CircuitBreaker.mk0])
  refine ⟨rfl, rfl, rfl, by norm_num [wClosed, wCfg, CircuitBreaker.mk0],
    by norm_num [wClosed, wCfg, CircuitBreaker.mk0],
    h.1 2 (by norm_num [wClosed, wCfg, CircuitBreaker.mk0]), ?_, (h.2.2 _).1⟩
  have : wClosed.config.failure_threshold = 3 := rfl
  rw [← this]
  exact h.2.1

theorem okIter_half (b : CircuitBreaker) (now : Rat) (r : Response)
    (hen : b.config.enabled = true) (hst : b.state = .halfOpen) (hsc : b.success_count = 0) :
    ∀ j, j < b.config.success_threshold →
      (okIter b now r j).state = .halfOpen ∧ (okIter b now r j).success_count = j ∧
      (okIter b now r j).config = b.config := by
  intro j
  induction j with
  | zero => exact fun _ => ⟨hst, hsc, rfl⟩
  | succ j ih =>
    intro hj
    obtain ⟨h1, h2, h3⟩ := ih (Nat.lt_of_succ_lt hj)
    have hen' : (okIter b now r j).config.enabled = true := by rw [h3]; exact hen
    obtain ⟨s1, s2, s3, s4⟩ := call_ok_from_half (okIter b now r j) now r hen' h1
    refine ⟨?_, ?_, ?_⟩
    · simp only [okIter]
      rw [s2, h2, h3, if_neg (by omega)]
    · simp only [okIter]
      rw [s3, h2, h3, if_neg (by omega)]
    · simp only [okIter]
      rw [s1, h3]

/-- C3: for every `success_threshold K ≥ 1`, a breaker in HALF_OPEN with
`success_count = 0` transitions to CLOSED with `failure_count = 0` and
`success_count = 0` after exactly K consecutive successful calls (it is still
HALF_OPEN after every earlier success), and any single failing call while
HALF_OPEN transitions the breaker immediately back to OPEN. -/
theorem C3_half_open_probing (b : CircuitBreaker) (now : Rat) (r : Response)
    (hen : b.config.enabled = true) (hst : b.state = .halfOpen) (hsc : b.success_count = 0)
    (hK : 1 ≤ b.config.success_threshold) :
    (∀ j, j < b.config.success_threshold → (okIter b now r j).state = .halfOpen) ∧
    (okIter b now r b.config.success_threshold).state = .closed ∧
    (okIter b now r b.config.success_threshold).failure_count = 0 ∧
    (okIter b now r b.config.success_threshold).success_count = 0 ∧
    (∀ (b' : CircuitBreaker) (e : Exc), b'.config.enabled = true → b'.state = .halfOpen →
      ((b'.call now (Except.error e : Except Exc Unit)).breaker).state = .opened) := by
  obtain ⟨K, hK'⟩ : ∃ j, b.config.success_threshold = j + 1 :=
    ⟨b.config.success_threshold - 1, by omega⟩
  obtain ⟨h1, h2, h3⟩ := okIter_half b now r hen hst hsc K (by omega)
  have hen' : (okIter b now r K).config.enabled = true := by rw [h3]; exact hen
  obtain ⟨s1, s2, s3, s4⟩ := call_ok_from_half (okIter b now r K) now r hen' h1
  refine ⟨fun j hj => (okIter_half b now r hen hst hsc j hj).1, ?_, ?_, ?_, ?_⟩
  · rw [hK']
    simp only [okIter]
    rw [s2, h2, h3, if_pos (by omega)]
  · rw [hK']
    simp only [okIter]
    rw [s4, h2, h3, if_pos (by omega)]
  · rw [hK']
    simp only [okIter]
    rw [s3, h2, h3, if_pos (by omega)]
  · intro b' e hen'' hst''
    exact (call_err_from_half b' now e hen'' hst'').1

theorem C3_half_open_probing_witness :
    wHalf.config.enabled = true ∧ wHalf.state = .halfOpen ∧ wHalf.success_count = 0 ∧
    1 ≤ wHalf.config.success_threshold ∧
    (okIter wHalf 0 wResp 1).state = .halfOpen ∧
    (okIter wHalf 0 wResp 2).state = .closed ∧
    (okIter wHalf 0 wResp 2).failure_count = 0 ∧
    ((wHalf.call 0 (Except.error wExc : Except Exc Unit)).breaker).state = .opened := by
  have h := C3_half_open_probing wHalf 0 wResp rfl rfl rfl
    (by norm_num [wHalf, wClosed, wCfg, CircuitBreaker.mk0])
  refine ⟨rfl, rfl, rfl, by norm_num [wHalf, wClosed, wCfg, CircuitBreaker.mk0],
    h.1 1 (by norm_num [wHalf, wClosed, wCfg, CircuitBreaker.mk0]), ?_, ?_, ?_⟩
  · have : wHalf.config.success_threshold = 2 := rfl
    rw [← this]; exact h.2.1
  · have : wHalf.config.success_threshold = 2 := rfl
    rw [← this]; exact h.2.2.1
  · exact h.2.2.2.2 wHalf wExc rfl rfl

/-! ### Claim theorems -/

/-- C10: `reset()` on a circuit breaker in any state sets the state to CLOSED
and zeroes `failure_count` and `success_count`, while leaving the cumulative
statistics `total_requests`, `total_failures`, `total_successes` and
`total_rejected` unchanged. -/
theorem C10_reset_frame (b : CircuitBreaker) :
    b.reset.state = .closed ∧ b.reset.failure_count = 0 ∧ b.reset.success_count = 0 ∧
    b.reset.total_requests = b.total_requests ∧
    b.reset.total_failures = b.total_failures ∧
    b.reset.total_successes = b.total_successes ∧
    b.reset.total_rejected = b.total_rejected := by
  simp [CircuitBreaker.reset, CircuitBreaker.set_closed]

/-- C5: a call rejected with `CircuitBreakerOpenError` (state OPEN, recovery
window not elapsed) increments `total_rejected` and `total_requests` but
leaves `failure_count`, `total_failures`, `last_failure_time` and the state
unchanged: a rejection is never recorded as a failure feeding back into the
breaker's own failure count. -/
theorem C5_rejection_not_failure {α : Type} (b : CircuitBreaker) (now : Rat)
    (op : Except Exc α) (hen : b.config.enabled = true) (hst : b.state = .opened)
    (hrec : now - b.last_failure_time < b.config.recovery_timeout) :
    (b.call now op).outcome = .rejectedOpen ∧
    ((b.call now op).breaker).total_rejected = b.total_rejected + 1 ∧
    ((b.call now op).breaker).total_requests = b.total_requests + 1 ∧
    ((b.call now op).breaker).failure_count = b.failure_count ∧
    ((b.call now op).breaker).total_failures = b.total_failures ∧
    ((b.call now op).breaker).last_failure_time = b.last_failure_time ∧
    ((b.call now op).breaker).state = b.state := by
  rw [call_open_rejected b now op hen hst hrec]
  simp [hst]

theorem C5_rejection_not_failure_witness :
    wOpen.config.enabled = true ∧ wOpen.state = .opened ∧
    ((120 : Rat) - wOpen.last_failure_time < wOpen.config.recovery_timeout) ∧
    (wOpen.call 120 (Except.ok wResp : Except Exc Response)).outcome = .rejectedOpen ∧
    ((wOpen.call 120 (Except.ok wResp : Except Exc Response)).breaker).total_rejected =
      wOpen.total_rejected + 1 := by
  refine ⟨rfl, rfl, by norm_num [wOpen, wClosed, wCfg, CircuitBreaker.mk0], ?_, ?_⟩
  · exact (C5_rejection_not_failure wOpen 120 _ rfl rfl (by norm_num [wOpen, wClosed, wCfg, CircuitBreaker.mk0])).1
  · exact (C5_rejection_not_failure wOpen 120 _ rfl rfl (by norm_num [wOpen, wClosed, wCfg, CircuitBreaker.mk0])).2.1

/-- C2: for a breaker OPEN since `last_failure_time = t0` with
`recovery_timeout = T`, a call strictly before `t0 + T` increments
`total_rejected` and raises `CircuitBreakerOpenError` without invoking the
operation; a call at or after `t0 + T` transitions to HALF_OPEN (resetting
`success_count` to 0) and invokes the operation. -/
theorem C2_open_recovery {α : Type} (b : CircuitBreaker) (now : Rat)
    (op : Except Exc α) (hen : b.config.enabled = true) (hst : b.state = .opened) :
    (now - b.last_failure_time < b.config.recovery_timeout →
      (b.call now op).outcome = .rejectedOpen ∧
      (b.call now op).invoked = false ∧
      ((b.call now op).breaker).total_rejected = b.total_rejected + 1) ∧
    (b.config.recovery_timeout ≤ now - b.last_failure_time →
      (b.call now op).invoked = true ∧
      b.call now op =
        ({ b with total_requests := b.total_requests + 1 }).set_half_open.exec now op ∧
      ({ b with total_requests := b.total_requests + 1 }).set_half_open.state = .halfOpen ∧
      ({ b with total_requests := b.total_requests + 1 }).set_half_open.success_count = 0) := by
  constructor
  · intro hrec
    rw [call_open_rejected b now op hen hst hrec]
    simp
  · intro hrec
    have h := call_open_reset b now op hen hst hrec
    refine ⟨?_, h, rfl, rfl⟩
    rw [h]
    cases op <;> rfl

theorem C2_open_recovery_witness :
    wOpen.config.enabled = true ∧ wOpen.state = .opened ∧
    ((120 : Rat) - wOpen.last_failure_time < wOpen.config.recovery_timeout) ∧
    (wOpen.call 120 (Except.ok wResp : Except Exc Response)).outcome = .rejectedOpen ∧
    (wOpen.config.recovery_timeout ≤ (170 : Rat) - wOpen.last_failure_time) ∧
    (wOpen.call 170 (Except.ok wResp : Except Exc Response)).invoked = true := by
  refine ⟨rfl, rfl, by norm_num [wOpen, wClosed, wCfg, CircuitBreaker.mk0], ?_, by norm_num [wOpen, wClosed, wCfg, CircuitBreaker.mk0], ?_⟩
  · exact ((C2_open_recovery wOpen 120 _ rfl rfl).1 (by norm_num [wOpen, wClosed, wCfg, CircuitBreaker.mk0])).1
  · exact ((C2_open_recovery wOpen 170 _ rfl rfl).2 (by norm_num [wOpen, wClosed, wCfg, CircuitBreaker.mk0])).1

theorem retryAux_all_fail (sr : Exc → Bool) (codes : List Nat) (d f : Rat)
    (op : Nat → Except Exc Response) :
    ∀ (remaining attempt : Nat),
      (∀ a, attempt ≤ a → a ≤ attempt + remaining → ∃ e, op a = .error e ∧ sr e = true) →
      retryAux sr codes d f op attempt remaining =
        ⟨op (attempt + remaining), remaining + 1,
         (List.range remaining).map (fun i => d * f ^ (attempt + i))⟩ := by
  intro remaining
  induction remaining with
  | zero =>
    intro attempt h
    simp [retryAux]
  | succ m ih =>
    intro attempt h
    obtain ⟨e, he, hse⟩ := h attempt le_rfl (by omega)
    have ihs := ih (attempt + 1) (fun a h1 h2 => h a (by omega) (by omega))
    simp only [retryAux, he, hse, if_true, ihs, RetryRun.mk.injEq]
    refine ⟨congrArg op (by omega), trivial, ?_⟩
    rw [List.range_succ_eq_map, List.map_cons, List.map_map]
    simp only [Nat.add_zero]
    congr 1
    refine List.map_congr_left ?_
    intro i _
    show d * f ^ (attempt + 1 + i) = d * f ^ (attempt + (i + 1))
    congr 2
    omega

/-- C6: for every `max_retries = m`, an operation that raises a retryable
error on every attempt is invoked exactly `m + 1` times by the retry wrapper,
which then raises the error produced by the final attempt (the last raised
error, not the first).  `sr` is the loop's `should_retry` classification, so
the statement covers both `http_service/patterns/decorators.py` and
`http_service/decorators.py`. -/
theorem C6_retry_exhaustion (sr : Exc → Bool) (codes : List Nat) (d f : Rat)
    (m : Nat) (op : Nat → Except Exc Response)
    (h : ∀ a, a ≤ m → ∃ e, op a = .error e ∧ sr e = true) :
    (retry_wrapper sr codes d f m op).invocations = m + 1 ∧
    (retry_wrapper sr codes d f m op).outcome = op m ∧
    ∃ e, op m = .error e ∧ (retry_wrapper sr codes d f m op).outcome = .error e := by
  have hall := retryAux_all_fail sr codes d f op m 0 (fun a h1 h2 => h a (by omega))
  rw [retry_wrapper, hall]
  obtain ⟨e, he, _⟩ := h m le_rfl
  exact ⟨rfl, by rw [Nat.zero_add], e, he, by rw [Nat.zero_add, he]⟩

theorem C6_retry_exhaustion_witness :
    (∀ a, a ≤ 2 → ∃ e, wFailOp a = .error e ∧ patterns_should_retry [] e = true) ∧
    (retry_wrapper (patterns_should_retry []) [] 1 2 2 wFailOp).invocations = 3 ∧
    (retry_wrapper (patterns_should_retry []) [] 1 2 2 wFailOp).outcome = wFailOp 2 := by
  have hh : ∀ a, a ≤ 2 → ∃ e, wFailOp a = .error e ∧ patterns_should_retry [] e = true :=
    fun a _ => ⟨⟨[0], a⟩, rfl, rfl⟩
  have h := C6_retry_exhaustion (patterns_should_retry []) [] 1 2 2 wFailOp hh
  exact ⟨hh, h.1, h.2.1⟩

/-- C7 counterexample: the retry decorator has no `max_delay` clamp at all —
with `retry_delay = 1`, `backoff_factor = 2` the seventh sleep is `64`, above
`min(1 * 2^6, 60) = 60` for the utility's default `max_delay = 60` — and the
separate utility `calculate_backoff_delay` is 1-based: at `attempt = 1` it
returns `1`, not `min(1 * 2^1, 60) = 2` as the 0-based formula of the claim
predicts. -/
theorem C7_counterexample :
    (retry_wrapper (patterns_should_retry []) [] 1 2 7 wFailOp).delays =
      [1, 2, 4, 8, 16, 32, 64] ∧
    min ((1 : Rat) * 2 ^ (6 : Nat)) 60 = 60 ∧ ((64 : Rat)) ≠ 60 ∧
    calculate_backoff_delay 1 1 2 60 false 0 = 1 ∧
    min ((1 : Rat) * 2 ^ (1 : Nat)) 60 = 2 ∧ ((1 : Rat)) ≠ 2 := by
  have hall := retryAux_all_fail (patterns_should_retry []) [] 1 2 wFailOp 7 0
    (fun a h1 h2 => ⟨⟨[0], a⟩, rfl, rfl⟩)
  rw [retry_wrapper, hall]
  refine ⟨?_, by norm_num, by norm_num, ?_, by norm_num, by norm_num⟩
  · norm_num [List.range_succ]
  · show min ((1 : Rat) * 2 ^ ((1 : Int) - 1)) 60 = 1
    norm_num

/-- C7 (amended): the sleep before re-attempt `a + 1` in the retry decorator
is exactly `retry_delay * backoff_factor ^ a`, with no `max_delay` clamp; the
separate utility `calculate_backoff_delay` takes a 1-based attempt and,
without jitter, returns `min(base_delay * backoff_factor ^ (attempt - 1),
max_delay)`; with jitter it widens that value by at most 25% (and by no more
than `max_delay - delay`), so the result never exceeds `max_delay`. -/
theorem C7_backoff_amended (sr : Exc → Bool) (codes : List Nat) (d f : Rat) (m : Nat)
    (op : Nat → Except Exc Response) (attempt : Int) (base factor max_delay rand : Rat) :
    ((∀ a, a ≤ m → ∃ e, op a = .error e ∧ sr e = true) →
      (retry_wrapper sr codes d f m op).delays =
        (List.range m).map (fun a => d * f ^ a)) ∧
    calculate_backoff_delay attempt base factor max_delay false rand =
      min (base * factor ^ (attempt - 1)) max_delay ∧
    (0 ≤ base → 0 ≤ factor → 0 ≤ rand → rand ≤ 1 → 0 ≤ max_delay →
      min (base * factor ^ (attempt - 1)) max_delay ≤
        calculate_backoff_delay attempt base factor max_delay true rand ∧
      calculate_backoff_delay attempt base factor max_delay true rand ≤ max_delay ∧
      calculate_backoff_delay attempt base factor max_delay true rand ≤
        min (base * factor ^ (attempt - 1)) max_delay * (5 / 4)) := by
  refine ⟨?_, rfl, ?_⟩
  · intro h
    have hall := retryAux_all_fail sr codes d f op m 0 (fun a h1 h2 => h a (by omega))
    rw [retry_wrapper, hall]
    simp
  · intro hb hf hr0 hr1 hm
    set d0 := min (base * factor ^ (attempt - 1)) max_delay with hd0
    have hx : 0 ≤ base * factor ^ (attempt - 1) := mul_nonneg hb (zpow_nonneg hf _)
    have hd0n : 0 ≤ d0 := le_min hx hm
    have hd0m : d0 ≤ max_delay := min_le_right _ _
    have hmj : 0 ≤ min (d0 * (1 / 4)) (max_delay - d0) :=
      le_min (mul_nonneg hd0n (by norm_num)) (by linarith)
    have hjb : min (d0 * (1 / 4)) (max_delay - d0) * rand ≤
        min (d0 * (1 / 4)) (max_delay - d0) :=
      mul_le_of_le_one_right hmj hr1
    have hja : 0 ≤ min (d0 * (1 / 4)) (max_delay - d0) * rand := mul_nonneg hmj hr0
    have h1 : min (d0 * (1 / 4)) (max_delay - d0) ≤ max_delay - d0 := min_le_right _ _
    have h2 : min (d0 * (1 / 4)) (max_delay - d0) ≤ d0 * (1 / 4) := min_le_left _ _
    have heq : calculate_backoff_delay attempt base factor max_delay true rand =
        d0 + min (d0 * (1 / 4)) (max_delay - d0) * rand := rfl
    rw [heq]
    refine ⟨by linarith, by linarith, by linarith⟩

theorem C7_backoff_amended_witness :
    (∀ a, a ≤ 2 → ∃ e, wFailOp a = .error e ∧ patterns_should_retry [] e = true) ∧
    ((0 : Rat) ≤ 1 ∧ (0 : Rat) ≤ 2 ∧ (0 : Rat) ≤ 1 / 2 ∧ ((1 : Rat) / 2 ≤ 1) ∧
      (0 : Rat) ≤ 60) ∧
    (retry_wrapper (patterns_should_retry []) [] 1 2 2 wFailOp).delays =
      (List.range 2).map (fun a => (1 : Rat) * 2 ^ a) ∧
    calculate_backoff_delay 3 1 2 60 true (1 / 2) ≤ 60 := by
  have h := C7_backoff_amended (patterns_should_retry []) [] 1 2 2 wFailOp 3 1 2 60 (1 / 2)
  refine ⟨fun a _ => ⟨⟨[0], a⟩, rfl, rfl⟩,
    ⟨by norm_num, by norm_num, by norm_num, by norm_num, by norm_num⟩,
    h.1 (fun a _ => ⟨⟨[0], a⟩, rfl, rfl⟩),
    (h.2.2 (by norm_num) (by norm_num) (by norm_num) (by norm_num) (by norm_num)).2.1⟩

/-- C8: the rate limiter follows exactly the specified algorithm: with
`interval = 1/requests_per_second`, an elapsed time of at least `interval`
resets the burst counter; a full burst causes a sleep of `interval` minus the
elapsed time (when positive) and a reset; then the counter is incremented,
`last_request_time` is set to the current time and the operation is invoked;
a `None` rate is a pass-through that never waits. -/
theorem C8_rate_limit_follows_spec (requests_per_second : Option Rat) (burst_size : Nat)
    (s : RateLimitState) (now after_wait : Rat) :
    rate_limit_step requests_per_second burst_size s now after_wait =
      spec_throttle requests_per_second burst_size s now after_wait ∧
    rate_limit_step none burst_size s now after_wait = (s, 0) := by
  constructor
  · cases requests_per_second <;> rfl
  · rfl

/-- C9: for an enabled bulkhead with `max_concurrent > 0`: when no permit can
be acquired the call is rejected with `BulkheadRejectedError` and the
operation is never invoked; when a permit is acquired the operation runs and
the permit is released on every exit path, so the free-permit count after the
call equals the count before it. -/
theorem C9_bulkhead_permits {α : Type} (cfg : BulkheadConfig) (op : Except Exc α)
    (avail : Nat) (n : Int) (hen : cfg.enabled = true)
    (hm : cfg.max_concurrent = some n) (hn : 0 < n) :
    (avail = 0 → Bulkhead.slot cfg avail op = ⟨avail, .rejected, false⟩) ∧
    (0 < avail →
      (Bulkhead.slot cfg avail op).invoked = true ∧
      (Bulkhead.slot cfg avail op).outcome = .res op ∧
      (Bulkhead.slot cfg avail op).avail = avail) := by
  have hsem : cfg.has_semaphore = true := by
    simp only [BulkheadConfig.has_semaphore, hm, Bool.and_eq_true, bne_iff_ne, ne_eq,
      decide_eq_true_eq]
    exact ⟨by omega, hn⟩
  constructor
  · intro h0
    simp [Bulkhead.slot, hen, hsem, semAcquire, h0]
  · intro hpos
    have : semAcquire avail = some (avail - 1) := by simp [semAcquire, hpos]
    simp [Bulkhead.slot, hen, hsem, this, semRelease]
    omega

/-- C4 counterexample: a call through `CircuitBreaker.call` whose operation
returns a 500 response — flagged as a failure by
`should_trigger_circuit_breaker` under `wCfg` — is recorded as a success:
`failure_count`, `total_failures` and `last_failure_time` are untouched and
`total_successes` is incremented, contradicting the claim that such a call is
recorded exactly like a raise. -/
theorem C4_counterexample :
    should_trigger_circuit_breaker (some wResp500) none wCfg = true ∧
    wClosed.config = wCfg ∧
    (wClosed.call 0 (Except.ok wResp500 : Except Exc Response)).outcome = .ok wResp500 ∧
    ((wClosed.call 0 (Except.ok wResp500 : Except Exc Response)).breaker).failure_count =
      wClosed.failure_count ∧
    ((wClosed.call 0 (Except.ok wResp500 : Except Exc Response)).breaker).total_failures =
      wClosed.total_failures ∧
    ((wClosed.call 0 (Except.ok wResp500 : Except Exc Response)).breaker).last_failure_time =
      wClosed.last_failure_time ∧
    ((wClosed.call 0 (Except.ok wResp500 : Except Exc Response)).breaker).total_successes =
      wClosed.total_successes + 1 := by
  refine ⟨rfl, rfl, rfl, rfl, rfl, rfl, rfl⟩

/-- C4 (amended): `CircuitBreaker.call` itself records any normal return as a
success; the failure classification of returned results happens in the
client's `request_func`, which converts a response whose status code is in
`failure_status_codes` into a raised `httpx.HTTPStatusError` before the
breaker sees it, and the breaker then sets `last_failure_time` and increments
`failure_count` and `total_failures` for that raise exactly as for any other
raised error. -/
theorem C4_classifier_via_request_func (b : CircuitBreaker) (now : Rat) (r : Response)
    (hen : b.config.enabled = true) (hst : b.state = .closed)
    (hne : b.config.failure_status_codes ≠ [])
    (hmem : r.status_code ∈ b.config.failure_status_codes) :
    request_func true b.config (.ok r) = .error (http_status_error r) ∧
    (((b.call now (request_func true b.config (.ok r))).breaker).failure_count =
       b.failure_count + 1 ∧
     ((b.call now (request_func true b.config (.ok r))).breaker).total_failures =
       b.total_failures + 1 ∧
     ((b.call now (request_func true b.config (.ok r))).breaker).last_failure_time = now) ∧
    (∀ e : Exc,
      ((b.call now (Except.error e : Except Exc Response)).breaker).failure_count =
        b.failure_count + 1 ∧
      ((b.call now (Except.error e : Except Exc Response)).breaker).total_failures =
        b.total_failures + 1 ∧
      ((b.call now (Except.error e : Except Exc Response)).breaker).last_failure_time = now) := by
  have hconv : request_func true b.config (.ok r) = .error (http_status_error r) := by
    simp [request_func, hne, hmem]
  refine ⟨hconv, ?_, ?_⟩
  · rw [hconv]
    obtain ⟨s1, s2, s3, s4, s5⟩ :=
      call_err_from_closed (α := Response) b now (http_status_error r) hen hst
    exact ⟨s2, s4, s3⟩
  · intro e
    obtain ⟨s1, s2, s3, s4, s5⟩ := call_err_from_closed (α := Response) b now e hen hst
    exact ⟨s2, s4, s3⟩

theorem C4_classifier_via_request_func_witness :
    wClosed.config.enabled = true ∧ wClosed.state = .closed ∧
    wClosed.config.failure_status_codes ≠ [] ∧
    wResp500.status_code ∈ wClosed.config.failure_status_codes ∧
    request_func true wClosed.config (.ok wResp500) = .error (http_status_error wResp500) ∧
    ((wClosed.call 5 (request_func true wClosed.config (.ok wResp500))).breaker).total_failures =
      wClosed.total_failures + 1 := by
  refine ⟨rfl, rfl, by decide, by decide, ?_, ?_⟩
  · exact (C4_classifier_via_request_func wClosed 5 wResp500 rfl rfl (by decide) (by decide)).1
  · exact (C4_classifier_via_request_func wClosed 5 wResp500 rfl rfl (by decide)
      (by decide)).2.1.2.1

theorem C9_bulkhead_permits_witness :
    wBhCfg.enabled = true ∧ wBhCfg.max_concurrent = some 2 ∧ (0 : Int) < 2 ∧
    Bulkhead.slot wBhCfg 0 (Except.ok wResp : Except Exc Response) =
      ⟨0, .rejected, false⟩ ∧
    (Bulkhead.slot wBhCfg 2 (Except.ok wResp : Except Exc Response)).invoked = true ∧
    (Bulkhead.slot wBhCfg 2 (Except.ok wResp : Except Exc Response)).avail = 2 := by
  refine ⟨rfl, rfl, by norm_num [wOpen, wClosed, wCfg, CircuitBreaker.mk0], ?_, ?_, ?_⟩
  · exact (C9_bulkhead_permits wBhCfg _ 0 2 rfl rfl (by norm_num [wOpen, wClosed, wCfg, CircuitBreaker.mk0])).1 rfl
  · exact ((C9_bulkhead_permits wBhCfg _ 2 2 rfl rfl (by norm_num [wOpen, wClosed, wCfg, CircuitBreaker.mk0])).2 (by norm_num [wOpen, wClosed, wCfg, CircuitBreaker.mk0])).1
  · exact ((C9_bulkhead_permits wBhCfg _ 2 2 rfl rfl (by norm_num [wOpen, wClosed, wCfg, CircuitBreaker.mk0])).2 (by norm_num [wOpen, wClosed, wCfg, CircuitBreaker.mk0])).2.2
